/-
Verification of the session-persisted authenticated web extraction subsystem
(src/utils/input_handler.py of the resume-tailor-agent repository).

The Python source is shallowly embedded below: pure helpers become Lean
functions; filesystem state becomes an explicit record threaded through the
session functions; the network, the browser and the PDF reader become oracle
fields of a World record, so that every control-flow branch of the source is
represented.  Machine effects observable to the claims (HTTP GET, browser
launch, session-directory mutation, file open) are recorded in an explicit
event list, and every print call of the source is recorded in a log list.
-/
import Mathlib

/-! ## Python string helpers

`' '.join(s.split())` (input_handler.py lines 81, 184, 204) and `str.strip`
are modelled over `List Char` with structural recursion so that all proofs
can evaluate them. -/

/-- Whitespace characters recognised by Python `str.split()` (ASCII part). -/
def isPySpace (c : Char) : Bool :=
  c == ' ' || c == '\t' || c == '\n' || c == '\r' || c == '\x0b' || c == '\x0c'

/-- Worker for `splitWs`: `acc` holds the current token, reversed. -/
def splitWsAux : List Char → List Char → List (List Char)
  | [], acc => if acc.isEmpty then [] else [acc.reverse]
  | c :: cs, acc =>
    if isPySpace c then
      if acc.isEmpty then splitWsAux cs []
      else acc.reverse :: splitWsAux cs []
    else splitWsAux cs (c :: acc)

/-- Python `s.split()`: split on runs of whitespace, dropping empty tokens. -/
def splitWs (l : List Char) : List (List Char) := splitWsAux l []

/-- Python `' '.join(tokens)`. -/
def joinSp : List (List Char) → List Char
  | [] => []
  | [t] => t
  | t :: t' :: ts => t ++ ' ' :: joinSp (t' :: ts)

/-- `' '.join(s.split())` — the whitespace normalization used at
input_handler.py lines 81, 184 and 204. -/
def pyNormalize (s : String) : String := ⟨joinSp (splitWs s.data)⟩

/-- Python `s.strip()` (used via `get_text(strip=True)` at line 173). -/
def pyStrip (s : String) : String :=
  ⟨(((s.data.dropWhile isPySpace).reverse.dropWhile isPySpace).reverse)⟩

/-- `p` is a leading segment of `l`. -/
def hasPre : List Char → List Char → Bool
  | [], _ => true
  | _ :: _, [] => false
  | p :: ps, c :: cs => p == c && hasPre ps cs

/-- Python `needle in hay` on strings (substring containment),
the membership test of line 71: `'linkedin.com' not in source_value`. -/
def containsSub (needle hay : List Char) : Bool :=
  match hay with
  | [] => hasPre needle []
  | _ :: cs => hasPre needle hay || containsSub needle cs

/-! ## URL host extraction

The spec conditions several properties on "the URL's host".  The source never
computes a host (it tests substring containment on the whole URL), so the
host notion is defined here from the spec's words, to be compared against the
code's check.  Modelled from the spec: "the gated target" is the
authenticated site domain, i.e. linkedin.com and its subdomains. -/

/-- Drop everything up to and including the first `://` (URL scheme). -/
def afterSchemeSep : List Char → Option (List Char)
  | ':' :: '/' :: '/' :: rest => some rest
  | _ :: rest => afterSchemeSep rest
  | [] => none

/-- Drop a `userinfo@` piece of a URL authority, if present. -/
def afterAtAux : List Char → Option (List Char)
  | [] => none
  | '@' :: rest => some rest
  | _ :: rest => afterAtAux rest

/-- The host component of a URL: the authority without userinfo and port. -/
def hostOf (url : List Char) : List Char :=
  let r := (afterSchemeSep url).getD url
  let auth := r.takeWhile (fun c => !(c == '/' || c == '?' || c == '#'))
  let noUser := (afterAtAux auth).getD auth
  noUser.takeWhile (fun c => !(c == ':'))

/-- `suffix` test on char lists. -/
def endsWithL (suf l : List Char) : Bool := hasPre suf.reverse l.reverse

/-- Spec-side notion: the URL's host is the gated target domain
(linkedin.com or a subdomain of it). -/
def hostIsGated (url : List Char) : Bool :=
  let h := hostOf url
  h == "linkedin.com".data || endsWithL ".linkedin.com".data h

/-- String-level wrapper for `hostOf`. -/
def hostOfStr (u : String) : String := ⟨hostOf u.data⟩

/-- String-level wrapper for `hostIsGated`. -/
def hostIsGatedStr (u : String) : Bool := hostIsGated u.data

/-! ## SessionStore: `get_daily_session_path` and `clear_old_sessions`

input_handler.py lines 21-41.  The filesystem below the base directory
`.linkedin` is modelled as a flag for the base plus the list of its direct
children, each a name together with an is-directory flag.  `rmFails` is the
oracle saying on which directories `shutil.rmtree` raises. -/

/-- The direct children of the `.linkedin` base directory. -/
structure FsState where
  baseExists : Bool
  entries : List (String × Bool)

/-- Lines 21-29: compute `session_<today>` under the base, create base and
session directory if absent (`mkdir(parents=True, exist_ok=True)`), return
the path.  `mkdir` raises `FileExistsError` when the path exists and is not
a directory. -/
def get_daily_session_path (today : String) (fs : FsState) :
    Except String (FsState × String) :=
  let name := "session_" ++ today
  match fs.entries.find? (fun e => e.1 == name) with
  | some (_, false) => .error ("FileExistsError: " ++ name)
  | some (_, true) => .ok ({ fs with baseExists := true }, name)
  | none => .ok ({ baseExists := true, entries := fs.entries ++ [(name, true)] }, name)

/-- The log line printed before each deletion (line 40). -/
def delLog (n : String) : String := "Deleting old session: .linkedin/" ++ n

/-- The modelled message of an `shutil.rmtree` failure. -/
def rmErr (n : String) : String := "rmtree failed: " ++ n

/-- Lines 38-41: iterate `base_dir.glob("session_*")`; delete every entry
that is a directory and differs from today, printing first.  A raising
`rmtree` aborts the loop (there is no handler in the source), leaving the
failing entry and everything after it in place. -/
def purgeLoop (todayName : String) (rmFails : String → Bool) :
    List (String × Bool) → List (String × Bool) × List String × Option String
  | [] => ([], [], none)
  | (n, d) :: rest =>
    if hasPre "session_".data n.data && !(n == todayName) && d then
      if rmFails n then ((n, d) :: rest, [delLog n], some (rmErr n))
      else
        let (es, lg, er) := purgeLoop todayName rmFails rest
        (es, delLog n :: lg, er)
    else
      let (es, lg, er) := purgeLoop todayName rmFails rest
      ((n, d) :: es, lg, er)

/-- Lines 31-41: `clear_old_sessions` first resolves (and thereby creates)
today's session path, returns silently when the base does not exist, and
otherwise runs the purge loop.  The third component of the result is the
propagated exception, if any. -/
def clear_old_sessions (today : String) (rmFails : String → Bool) (fs : FsState) :
    FsState × List String × Option String :=
  match get_daily_session_path today fs with
  | .error e => (fs, [], some e)
  | .ok (fs1, todayName) =>
    if fs1.baseExists then
      let (es, lg, er) := purgeLoop todayName rmFails fs1.entries
      ({ fs1 with entries := es }, lg, er)
    else (fs1, [], none)

/-- An entry survives the purge loop unless it is a `session_*` directory
different from today's. -/
def keepsEntry (todayName : String) (e : String × Bool) : Bool :=
  !(hasPre "session_".data e.1.data && !(e.1 == todayName) && e.2)

/-! ## Data model and oracles for `get_job_data` (lines 53-209) -/

/-- Line 16-19: the extraction result. -/
structure ScrapedJobData where
  company_name : String
  job_description_text : String
deriving DecidableEq

/-- The captured page markup (line 158, `page.content()`), abstracted to the
outcomes of the three queries the parse stage performs on it:
`select_one` on the company selector alternatives (line 171), `find` of
`div#job-details` and `find` of `div.description__text` (lines 179-182).
Each field holds the raw visible text of the matched element, if any. -/
structure Markup where
  companySel : Option String
  jobDetails : Option String
  descText : Option String

/-- Oracle outcomes of the individual browser steps of lines 106-161.
`Option String` steps carry the exception message when the step raises;
`Bool` steps say whether the awaited selector appeared in time.
Launch, fill and click are modelled as always succeeding; their failures
would flow into the same catch-all handler as the modelled ones. -/
structure BrowserW where
  gotoLogin1 : Option String
  probeLoggedIn : Bool
  gotoLogin2 : Option String
  emailField : Bool
  passwordField : Bool
  confirm : Bool
  gotoJob : Option String
  applyBtn : Bool
  markup : Markup

/-- The ambient world of one `get_job_data` call: the network, the process
environment, the filesystem and the PDF reader. -/
structure World where
  simpleFetch : String → Option String
  fetchErrMsg : String
  email : Option String
  password : Option String
  today : String
  fs : FsState
  rmFails : String → Bool
  browser : BrowserW
  pdfPages : String → Option (List String)
  pdfErrMsg : String

/-- Network and filesystem effects performed by `get_job_data`. -/
inductive Eff
  | fetchGet (url : String)
  | authScraper
  | sessionMkdir
  | sessionPurge
  | browserLaunch
  | fileOpen (path : String)
deriving DecidableEq

/-- The observable outcome of a `get_job_data` call: effects, prints, and
the returned value or the propagated exception. -/
structure PyResult where
  events : List Eff
  logs : List String
  out : Except String ScrapedJobData

/-- Line 125. -/
def email_field_selector : String := "input#username"

/-- Line 131. -/
def password_field_selector : String := "input#password"

/-- Line 141 (also the probe of line 117). -/
def login_confirmation_selector : String := "input.search-global-typeahead__input"

/-- Line 151: the selector awaited before reading the page content. -/
def apply_button_selector : String := "button.jobs-apply-button"

/-- The markers the ExtractContent wait step (lines 151-153) is ready to
accept: exactly one, the Apply button. -/
def extractWaitMarkers : List String := [apply_button_selector]

/-- `soup.find('div', id='job-details')` of line 180, as a marker name. -/
def jobDetailsMarker : String := "div#job-details"

/-- `soup.find('div', class_='description__text')` of line 181. -/
def descriptionMarker : String := "div.description__text"

/-- The ordered markers the parse stage (lines 179-182) tries for the
content region, first match wins. -/
def parseContainerMarkers : List String := [jobDetailsMarker, descriptionMarker]

/-- Modelled message of a `wait_for_selector` timeout. -/
def timeoutMsg (sel ms : String) : String :=
  "Timeout " ++ ms ++ "ms exceeded waiting for selector " ++ sel

/-- Line 186: the exception raised when no content marker matches. -/
def jdMissingMsg : String := "Could not find the job description container on the page."

/-- Python truthiness of an optional string (`if not email or not password`). -/
def pyTruthy : Option String → Bool
  | none => false
  | some s => !(s == "")

/-- How Python's f-string prints an optional string. -/
def pyShowOpt : Option String → String
  | none => "None"
  | some s => s

/-- Line 94: `'*' * len(password) if password else None`. -/
def maskPw : Option String → String
  | none => "None"
  | some s => if s == "" then "None" else ⟨List.replicate s.length '*'⟩

/-- The length through which (alone) the secret may influence output. -/
def pwLen : Option String → Nat
  | none => 0
  | some s => s.length

/-- Lines 114-143: the session probe and, when it fails, the login flow.
Returns the prints and either unit (logged in) or the raised exception. -/
def loginPhase (b : BrowserW) : List String × Except String Unit :=
  if b.probeLoggedIn then
    (["Session valid. Already logged in."], .ok ())
  else
    let l0 := ["Session not valid or login required. Proceeding with login..."]
    match b.gotoLogin2 with
    | some e => (l0, .error e)
    | none =>
      let l1 := l0 ++ ["Waiting for login form to be ready..."]
      if !b.emailField then (l1, .error (timeoutMsg email_field_selector "30000"))
      else
        let l2 := l1 ++ ["Filling email..."]
        if !b.passwordField then (l2, .error (timeoutMsg password_field_selector "30000"))
        else
          let l3 := l2 ++ ["Filling password...", "Signing in...",
                           "Waiting for login confirmation (main search bar)..."]
          if !b.confirm then (l3, .error (timeoutMsg login_confirmation_selector "60000"))
          else (l3 ++ ["Login successful!"], .ok ())

/-- Lines 145-161: navigate to the job URL, wait for the Apply button,
read the rendered markup, close the browser. -/
def jobPhase (b : BrowserW) (url : String) : List String × Except String Markup :=
  let l0 := ["Navigating to job URL: " ++ url]
  match b.gotoJob with
  | some e => (l0, .error e)
  | none =>
    let l1 := l0 ++ ["Waiting for page to fully load by finding the Apply button (\x27"
                      ++ apply_button_selector ++ "\x27)..."]
    if !b.applyBtn then (l1, .error (timeoutMsg apply_button_selector "60000"))
    else (l1 ++ ["Apply button found. Page is ready for scraping.",
                 "Scraping complete. Closing browser."], .ok b.markup)

/-- Lines 106-161: the browser part of the try block. -/
def browserFlow (b : BrowserW) (url : String) : List String × Except String Markup :=
  match b.gotoLogin1 with
  | some e => ([], .error e)
  | none =>
    match loginPhase b with
    | (lg, .error e) => ("Checking if already logged in..." :: lg, .error e)
    | (lg, .ok ()) =>
      match jobPhase b url with
      | (jlg, r) => ("Checking if already logged in..." :: (lg ++ jlg), r)

/-- Line 171-177: resolve the company name, falling back to the sentinel. -/
def companyResolved (m : Markup) : String :=
  match m.companySel with
  | some t => pyStrip t
  | none => "Unknown Company"

/-- Lines 163-188: parse the captured markup; company name first-match with
sentinel fallback, then the content region by `div#job-details` or else
`div.description__text`, first match wins; raise when neither matches. -/
def parseResult (m : Markup) : List String × Except String ScrapedJobData :=
  let clg :=
    match m.companySel with
    | some t => ["Successfully scraped Company Name: " ++ pyStrip t]
    | none => ["Warning: Could not scrape company name. Defaulting to \x27Unknown Company\x27."]
  match m.jobDetails with
  | some t => (clg, .ok ⟨companyResolved m, pyNormalize t⟩)
  | none =>
    match m.descText with
    | some t => (clg, .ok ⟨companyResolved m, pyNormalize t⟩)
    | none => (clg, .error jdMissingMsg)

/-- Lines 102-188: the body of the try block — session acquisition, purge,
browser flow, parse. -/
def tryBody (today : String) (rmFails : String → Bool) (fs : FsState)
    (b : BrowserW) (url : String) :
    List Eff × List String × Except String ScrapedJobData :=
  match get_daily_session_path today fs with
  | .error e => ([.sessionMkdir], [], .error e)
  | .ok (fs1, _) =>
    match clear_old_sessions today rmFails fs1 with
    | (_, slg, some e) => ([.sessionMkdir, .sessionPurge], slg, .error e)
    | (_, slg, none) =>
      match browserFlow b url with
      | (blg, .error e) =>
        ([.sessionMkdir, .sessionPurge, .browserLaunch], slg ++ blg, .error e)
      | (blg, .ok m) =>
        let (plg, pout) := parseResult m
        ([.sessionMkdir, .sessionPurge, .browserLaunch], slg ++ blg ++ plg, pout)

/-- Lines 87-192: the authenticated scraper attempt — credential loading and
gate (lines 89-100), then the try block with its catch-all that logs the
exception and re-raises (lines 190-192). -/
def authScrapePath (email password : Option String) (today : String)
    (rmFails : String → Bool) (fs : FsState) (b : BrowserW) (url : String) :
    List Eff × List String × Except String ScrapedJobData :=
  let l0 := ["Using Playwright to fetch dynamic content with login...",
             "--- DEBUGGING CREDENTIALS ---",
             "Loaded Email: " ++ pyShowOpt email,
             "Loaded Password: " ++ maskPw password]
  if !(pyTruthy email && pyTruthy password) then
    ([.authScraper],
     l0 ++ ["ERROR: Credentials not found in environment variables. Stopping."],
     .error "LINKEDIN_EMAIL and LINKEDIN_PASSWORD must be set in the .env file")
  else
    match tryBody today rmFails fs b url with
    | (evs, lg, .ok r) =>
      (.authScraper :: evs,
       l0 ++ ["--- CREDENTIALS LOADED SUCCESSFULLY ---"] ++ lg, .ok r)
    | (evs, lg, .error e) =>
      (.authScraper :: evs,
       l0 ++ ["--- CREDENTIALS LOADED SUCCESSFULLY ---"] ++ lg
          ++ ["An error occurred during Playwright operation: " ++ e],
       .error e)

/-- Lines 53-209: `get_job_data`, the extraction orchestrator. -/
def get_job_data (w : World) (source_type source_value : String) : PyResult :=
  let l0 := ["Processing job description from source: " ++ source_type]
  if source_type == "url" then
    if !(containsSub "linkedin.com".data source_value.data) then
      let l1 := l0 ++ ["Non-LinkedIn URL detected, using simple fetch."]
      match w.simpleFetch source_value with
      | some raw =>
        ⟨[.fetchGet source_value], l1, .ok ⟨"Unknown Company", pyNormalize raw⟩⟩
      | none =>
        let l2 := l1 ++ ["Simple fetch failed: " ++ w.fetchErrMsg
                          ++ ". Falling back to Playwright."]
        match authScrapePath w.email w.password w.today w.rmFails w.fs w.browser source_value with
        | (evs, lg, out) => ⟨.fetchGet source_value :: evs, l2 ++ lg, out⟩
    else
      match authScrapePath w.email w.password w.today w.rmFails w.fs w.browser source_value with
      | (evs, lg, out) => ⟨evs, l0 ++ lg, out⟩
  else if source_type == "text" then
    ⟨[], l0, .ok ⟨"Unknown Company", source_value⟩⟩
  else if source_type == "pdf" then
    match w.pdfPages source_value with
    | none => ⟨[.fileOpen source_value], l0, .error ("Error reading PDF file: " ++ w.pdfErrMsg)⟩
    | some pages =>
      ⟨[.fileOpen source_value], l0, .ok ⟨"Unknown Company", pyNormalize (String.join pages)⟩⟩
  else
    ⟨[], l0, .error "Invalid source_type. Choose from \x27url\x27, \x27text\x27, or \x27pdf\x27."⟩

/-- Does an effect record the unauthenticated GET of the fast path? -/
def isFetchGet : Eff → Bool
  | .fetchGet _ => true
  | _ => false

/-- How often the authenticated scraper was entered. -/
def countScraper (l : List Eff) : Nat :=
  l.countP (fun e => match e with | .authScraper => true | _ => false)

/-- Whether a call attempted the SimpleFetcher fast path. -/
def fastAttempted (w : World) (u : String) : Bool :=
  (get_job_data w "url" u).events.any isFetchGet

/-! ## Concrete worlds used to instantiate the theorems -/

/-- A browser world in which every step succeeds and the session probe
finds an existing login. -/
def okBrowser : BrowserW :=
  { gotoLogin1 := none, probeLoggedIn := true, gotoLogin2 := none,
    emailField := true, passwordField := true, confirm := true,
    gotoJob := none, applyBtn := true,
    markup := { companySel := some "Acme Corp", jobDetails := some "Auth Text",
                descText := none } }

/-- A world where the simple fetch succeeds, credentials are present and
the browser path would succeed as well. -/
def w1 : World :=
  { simpleFetch := fun _ => some "Great Job", fetchErrMsg := "boom",
    email := some "user@example.com", password := some "hunter2",
    today := "2025-10-12", fs := { baseExists := false, entries := [] },
    rmFails := fun _ => false, browser := okBrowser,
    pdfPages := fun _ => none, pdfErrMsg := "no file" }

/-- Same world with a failing simple fetch. -/
def w2 : World := { w1 with simpleFetch := fun _ => none }

/-- A URL whose host is not the gated domain but whose query string
mentions it. -/
def u1 : String := "https://jobs.example.com/post?utm=linkedin.com"

/-- Another URL with a non-gated host and the gated name in the query. -/
def u2 : String := "https://example.com/jobs?ref=linkedin.com"

/-- A URL with no occurrence of the gated name at all. -/
def u3 : String := "https://plain.example.org/careers/42"

/-- Two stale session directories, no directory for today. -/
def fs6 : FsState :=
  ⟨true, [("session_2025-01-01", true), ("session_2025-01-02", true)]⟩

/-- Deletion fails on the first stale directory. -/
def rm6 : String → Bool := fun n => n == "session_2025-01-01"

/-- A world whose purge hits a failing deletion. -/
def w6 : World := { w1 with fs := fs6, rmFails := rm6 }

/-- Three prior-day session directories plus today's. -/
def fs5 : FsState :=
  ⟨true, [("session_2025-10-09", true), ("session_2025-10-10", true),
          ("session_2025-10-11", true), ("session_2025-10-12", true)]⟩

/-- A markup where no content marker matches. -/
def mEmpty : Markup := ⟨some "Acme", none, none⟩

/-- A markup where both content markers match. -/
def mBoth : Markup := ⟨none, some "AAA", some "BBB"⟩

/-- The all-good browser with the Apply button never appearing. -/
def bNoApply : BrowserW := { okBrowser with applyBtn := false }

/-! ## Lemmas about whitespace normalization -/

theorem splitWsAux_append (t : List Char) (l acc : List Char)
    (h : ∀ c ∈ t, isPySpace c = false) :
    splitWsAux (t ++ l) acc = splitWsAux l (t.reverse ++ acc) := by
  induction t generalizing acc with
  | nil => simp
  | cons c t ih =>
    have hc : isPySpace c = false := h c (by simp)
    simp only [List.cons_append, splitWsAux, hc, Bool.false_eq_true, if_false,
               List.append_eq]
    rw [ih _ (fun x hx => h x (by simp [hx]))]
    simp [List.append_assoc]

theorem splitWsAux_space (l : List Char) (acc : List Char) (h : acc ≠ []) :
    splitWsAux (' ' :: l) acc = acc.reverse :: splitWsAux l [] := by
  have hs : isPySpace ' ' = true := rfl
  simp [splitWsAux, hs, h]

theorem splitWs_clean_single (t : List Char) (hne : t ≠ [])
    (h : ∀ c ∈ t, isPySpace c = false) : splitWs t = [t] := by
  have h0 : splitWsAux t [] = splitWsAux (t ++ []) [] := by simp
  rw [splitWs, h0, splitWsAux_append t [] [] h]
  simp [splitWsAux, hne]

theorem split_join : ∀ ts : List (List Char),
    (∀ t ∈ ts, t ≠ [] ∧ ∀ c ∈ t, isPySpace c = false) →
    splitWs (joinSp ts) = ts
  | [], _ => rfl
  | [t], h => by
    have ht := h t (by simp)
    show splitWs t = [t]
    exact splitWs_clean_single t ht.1 ht.2
  | t :: t' :: ts, h => by
    have ht := h t (by simp)
    have ih := split_join (t' :: ts) (fun u hu => h u (by simp at hu ⊢; tauto))
    show splitWsAux (t ++ ' ' :: joinSp (t' :: ts)) [] = t :: t' :: ts
    rw [splitWsAux_append t _ [] ht.2,
        splitWsAux_space _ _ (by simp [ht.1])]
    rw [splitWs] at ih
    simp [ih]

theorem splitWsAux_tokens (l : List Char) : ∀ acc, (∀ c ∈ acc, isPySpace c = false) →
    ∀ t ∈ splitWsAux l acc, t ≠ [] ∧ ∀ c ∈ t, isPySpace c = false := by
  induction l with
  | nil =>
    intro acc hacc t ht
    by_cases h : acc = []
    · subst h; simp [splitWsAux] at ht
    · simp [splitWsAux, h] at ht
      subst ht
      refine ⟨by simpa using h, fun c hc => hacc c (by simpa using hc)⟩
  | cons c cs ih =>
    intro acc hacc t ht
    by_cases hc : isPySpace c = true
    · by_cases ha : acc = []
      · subst ha
        simp [splitWsAux, hc] at ht
        exact ih [] (by simp) t ht
      · simp [splitWsAux, hc, ha] at ht
        rcases ht with rfl | ht
        · refine ⟨by simpa using ha, fun x hx => hacc x (by simpa using hx)⟩
        · exact ih [] (by simp) t ht
    · have hcf : isPySpace c = false := by simpa using hc
      simp [splitWsAux, hcf] at ht
      refine ih (c :: acc) ?_ t ht
      intro x hx
      rcases List.mem_cons.mp hx with rfl | hx
      · exact hcf
      · exact hacc x hx

theorem pyNormalize_idem_data (l : List Char) :
    joinSp (splitWs (joinSp (splitWs l))) = joinSp (splitWs l) := by
  rw [split_join (splitWs l) (splitWsAux_tokens l [] (by simp))]

/-- Claim C9: the whitespace normalization used on extracted text
(collapsing runs of whitespace to single spaces, lines 184 and 204) is
idempotent: normalizing an already normalized string returns it unchanged. -/
theorem claim9_normalize_idempotent (s : String) :
    pyNormalize (pyNormalize s) = pyNormalize s :=
  congrArg String.mk (pyNormalize_idem_data s.data)

/-! ## Lemmas about the session store -/

theorem purgeLoop_keeps_today (tn : String) (rm : String → Bool)
    (es : List (String × Bool)) (h : (tn, true) ∈ es) :
    (tn, true) ∈ (purgeLoop tn rm es).1 := by
  induction es with
  | nil => simp at h
  | cons e rest ih =>
    obtain ⟨n, d⟩ := e
    by_cases h1 : (hasPre "session_".data n.data && !(n == tn) && d) = true
    · by_cases h2 : rm n = true
      · simp only [purgeLoop, h1, if_true, h2]
        exact h
      · rcases hP : purgeLoop tn rm rest with ⟨a, b, c⟩
        simp only [purgeLoop, h1, if_true, h2, Bool.false_eq_true, if_false, hP]
        rcases List.mem_cons.mp h with heq | hmem
        · exfalso
          have hn : n = tn := (Prod.mk.injEq _ _ _ _).mp heq.symm |>.1
          subst hn
          simp at h1
        · have := ih hmem
          rw [hP] at this
          exact this
    · rcases hP : purgeLoop tn rm rest with ⟨a, b, c⟩
      simp only [purgeLoop, h1, Bool.false_eq_true, if_false, hP]
      rcases List.mem_cons.mp h with heq | hmem
      · exact heq ▸ List.mem_cons_self _ _
      · have := ih hmem
        rw [hP] at this
        exact List.mem_cons_of_mem _ this

theorem purgeLoop_noFail (tn : String) (es : List (String × Bool)) :
    (purgeLoop tn (fun _ => false) es).1 = es.filter (keepsEntry tn)
    ∧ (purgeLoop tn (fun _ => false) es).2.2 = none := by
  induction es with
  | nil => simp [purgeLoop]
  | cons e rest ih =>
    obtain ⟨n, d⟩ := e
    rcases hP : purgeLoop tn (fun _ => false) rest with ⟨a, b, c⟩
    rw [hP] at ih
    by_cases h1 : (hasPre "session_".data n.data && !(n == tn) && d) = true
    · simp only [purgeLoop, h1, if_true, Bool.false_eq_true, if_false, hP,
                 List.filter_cons, keepsEntry, Bool.not_true]
      simpa [keepsEntry, h1] using ih
    · simp only [purgeLoop, h1, Bool.false_eq_true, if_false, hP]
      simpa [keepsEntry, h1] using ih

theorem purgeLoop_success (tn : String) (rm : String → Bool)
    (es : List (String × Bool)) (h : (purgeLoop tn rm es).2.2 = none) :
    (purgeLoop tn rm es).1 = es.filter (keepsEntry tn) := by
  induction es with
  | nil => simp [purgeLoop]
  | cons e rest ih =>
    obtain ⟨n, d⟩ := e
    rcases hP : purgeLoop tn rm rest with ⟨a, b, c⟩
    rw [hP] at ih
    by_cases h1 : (hasPre "session_".data n.data && !(n == tn) && d) = true
    · by_cases h2 : rm n = true
      · exfalso
        simp only [purgeLoop, h1, if_true, h2] at h
        exact Option.noConfusion h
      · simp only [purgeLoop, h1, if_true, h2, Bool.false_eq_true, if_false, hP] at h ⊢
        simpa [keepsEntry, h1] using ih h
    · simp only [purgeLoop, h1, Bool.false_eq_true, if_false, hP] at h ⊢
      simpa [keepsEntry, h1] using ih h

theorem gdsp_ok_facts (today : String) (fs fs1 : FsState) (nm : String)
    (h : get_daily_session_path today fs = .ok (fs1, nm)) :
    nm = "session_" ++ today ∧ fs1.baseExists = true
    ∧ (nm, true) ∈ fs1.entries
    ∧ ∀ x ∈ fs.entries, x ∈ fs1.entries := by
  simp only [get_daily_session_path] at h
  rcases hf : fs.entries.find? (fun e => e.1 == ("session_" ++ today)) with _ | ⟨n, b⟩
  · rw [hf] at h
    simp only [Except.ok.injEq, Prod.mk.injEq] at h
    obtain ⟨hfs, hnm⟩ := h
    subst hnm
    refine ⟨rfl, by rw [← hfs], ?_, ?_⟩
    · rw [← hfs]; simp
    · intro x hx; rw [← hfs]; simp [hx]
  · rw [hf] at h
    cases b with
    | false => exact absurd h (by simp)
    | true =>
      simp only [Except.ok.injEq, Prod.mk.injEq] at h
      obtain ⟨hfs, hnm⟩ := h
      subst hnm
      have hmem : (n, true) ∈ fs.entries := List.mem_of_find?_eq_some hf
      have hpred := List.find?_some hf
      have hn : n = "session_" ++ today := by simpa using hpred
      subst hn
      refine ⟨rfl, by rw [← hfs], by rw [← hfs]; exact hmem, ?_⟩
      intro x hx; rw [← hfs]; exact hx

theorem clear_keeps_today (today : String) (rm : String → Bool) (fs : FsState)
    (h : ("session_" ++ today, true) ∈ fs.entries) :
    ("session_" ++ today, true) ∈ (clear_old_sessions today rm fs).1.entries := by
  unfold clear_old_sessions
  rcases hg : get_daily_session_path today fs with e | ⟨fs1, nm⟩
  · simpa using h
  · obtain ⟨hnm, hb, hmem, hsub⟩ := gdsp_ok_facts today fs fs1 nm hg
    subst hnm
    rcases hp : purgeLoop ("session_" ++ today) rm fs1.entries with ⟨a, b2, c⟩
    have hm := purgeLoop_keeps_today ("session_" ++ today) rm fs1.entries (hsub _ h)
    rw [hp] at hm
    simp [hb, hp]
    exact hm

theorem clear_eq_of_ok (today : String) (rm : String → Bool) (fs fs1 : FsState)
    (nm : String) (hg : get_daily_session_path today fs = .ok (fs1, nm))
    (hb : fs1.baseExists = true) :
    clear_old_sessions today rm fs =
      ({ fs1 with entries := (purgeLoop nm rm fs1.entries).1 },
       (purgeLoop nm rm fs1.entries).2.1, (purgeLoop nm rm fs1.entries).2.2) := by
  unfold clear_old_sessions
  rw [hg]
  rcases hp : purgeLoop nm rm fs1.entries with ⟨a, b2, c⟩
  simp [hb, hp]

/-- Claim C5: the purge never deletes today's session directory (the glob
hits are compared against today's path, lines 38-41), and when no deletion
fails, it removes exactly the non-today `session_*` directories. -/
theorem claim5_purge_today_safe (today : String) (rm : String → Bool) (fs : FsState) :
    (("session_" ++ today, true) ∈ fs.entries →
      ("session_" ++ today, true) ∈ (clear_old_sessions today rm fs).1.entries)
    ∧ (∀ fs1 nm, get_daily_session_path today fs = .ok (fs1, nm) →
        (clear_old_sessions today (fun _ => false) fs).1.entries
            = fs1.entries.filter (keepsEntry nm)
        ∧ (clear_old_sessions today (fun _ => false) fs).2.2 = none) := by
  constructor
  · exact fun h => clear_keeps_today today rm fs h
  · intro fs1 nm hg
    obtain ⟨hnm, hb, hmem, hsub⟩ := gdsp_ok_facts today fs fs1 nm hg
    rw [clear_eq_of_ok today (fun _ => false) fs fs1 nm hg hb]
    exact ⟨(purgeLoop_noFail nm fs1.entries).1, (purgeLoop_noFail nm fs1.entries).2⟩

/-- Concrete instance of claim C5: three prior-day directories and today's;
exactly the prior ones go, today's stays. -/
theorem claim5_witness :
    ("session_" ++ "2025-10-12", true)
        ∈ (clear_old_sessions "2025-10-12" (fun _ => false) fs5).1.entries
    ∧ (clear_old_sessions "2025-10-12" (fun _ => false) fs5).1.entries
        = fs5.entries.filter (keepsEntry "session_2025-10-12") := by
  refine ⟨(claim5_purge_today_safe "2025-10-12" (fun _ => false) fs5).1 (by decide), ?_⟩
  exact ((claim5_purge_today_safe "2025-10-12" (fun _ => false) fs5).2
    fs5 "session_2025-10-12" rfl).1

/-- Claim C10: when `clear_old_sessions` returns without an exception,
today's session directory exists under the base (it was created by the
call to `get_daily_session_path` at line 33) and it is the only
`session_*` directory left. -/
theorem claim10_today_exists_and_unique (today : String) (rm : String → Bool)
    (fs : FsState) (h : (clear_old_sessions today rm fs).2.2 = none) :
    ("session_" ++ today, true) ∈ (clear_old_sessions today rm fs).1.entries
    ∧ ∀ n b, (n, b) ∈ (clear_old_sessions today rm fs).1.entries →
        hasPre "session_".data n.data = true → b = true → n = "session_" ++ today := by
  rcases hg : get_daily_session_path today fs with e | ⟨fs1, nm⟩
  · exfalso
    unfold clear_old_sessions at h
    rw [hg] at h
    simp at h
  · obtain ⟨hnm, hb, hmem, hsub⟩ := gdsp_ok_facts today fs fs1 nm hg
    subst hnm
    rw [clear_eq_of_ok today rm fs fs1 _ hg hb] at h ⊢
    have hc : (purgeLoop ("session_" ++ today) rm fs1.entries).2.2 = none := h
    have hfil := purgeLoop_success ("session_" ++ today) rm fs1.entries hc
    constructor
    · show ("session_" ++ today, true) ∈ (purgeLoop ("session_" ++ today) rm fs1.entries).1
      rw [hfil]
      exact List.mem_filter.mpr ⟨hmem, by simp [keepsEntry]⟩
    · intro n b hnb hpre hbt
      subst hbt
      have hnb' : (n, true) ∈ (purgeLoop ("session_" ++ today) rm fs1.entries).1 := hnb
      rw [hfil] at hnb'
      have hk := (List.mem_filter.mp hnb').2
      simp [keepsEntry, hpre] at hk
      exact hk

/-- Concrete instance of claim C10. -/
theorem claim10_witness :
    ("session_" ++ "2025-10-12", true)
        ∈ (clear_old_sessions "2025-10-12" (fun _ => false) fs5).1.entries :=
  (claim10_today_exists_and_unique "2025-10-12" (fun _ => false) fs5 rfl).1

/-! ## Lemmas about the orchestrator -/

theorem tryBody_events (today : String) (rm : String → Bool) (fs : FsState)
    (b : BrowserW) (url : String) :
    countScraper (tryBody today rm fs b url).1 = 0
    ∧ (tryBody today rm fs b url).1.any isFetchGet = false := by
  unfold tryBody
  rcases hg : get_daily_session_path today fs with e | ⟨fs1, nm⟩
  · simp [countScraper, isFetchGet]
  · rcases hc : clear_old_sessions today rm fs1 with ⟨fs2, slg, er⟩
    rcases er with _ | e
    · rcases hbf : browserFlow b url with ⟨blg, r⟩
      rcases r with e | m
      · simp [hc, hbf, countScraper, isFetchGet]
      · rcases hpr : parseResult m with ⟨plg, pout⟩
        simp [hc, hbf, hpr, countScraper, isFetchGet]
    · simp [hc, countScraper, isFetchGet]

theorem authScrape_events (em pw : Option String) (today : String)
    (rm : String → Bool) (fs : FsState) (b : BrowserW) (url : String) :
    countScraper (authScrapePath em pw today rm fs b url).1 = 1
    ∧ (authScrapePath em pw today rm fs b url).1.any isFetchGet = false := by
  unfold authScrapePath
  by_cases hcred : (pyTruthy em && pyTruthy pw) = true
  · rcases ht : tryBody today rm fs b url with ⟨evs, lg, out⟩
    have h0 := tryBody_events today rm fs b url
    rw [ht] at h0
    have h1 := h0.1
    have h2 := h0.2
    unfold countScraper at h1 ⊢
    rcases out with e | r <;>
      simp [hcred, ht, List.countP_cons, isFetchGet, h1, h2]
  · have hcred' : (pyTruthy em && pyTruthy pw) = false := by simpa using hcred
    simp [hcred', countScraper, isFetchGet]

/-- Claim C1 (amended: the non-gated condition is that the substring
linkedin.com does not occur anywhere in the URL, line 71, rather than a
condition on the URL host): when the simple fetch succeeds, its result is
returned and the authenticated scraper never runs; when it fails, the
failure is swallowed and the authenticated scraper runs exactly once, its
outcome becoming the outcome of the call. -/
theorem claim1_amended_fastpath_fallback (w : World) (u : String)
    (hng : containsSub "linkedin.com".data u.data = false) :
    (∀ raw, w.simpleFetch u = some raw →
      get_job_data w "url" u =
        ⟨[.fetchGet u],
         ["Processing job description from source: url",
          "Non-LinkedIn URL detected, using simple fetch."],
         .ok ⟨"Unknown Company", pyNormalize raw⟩⟩
      ∧ countScraper (get_job_data w "url" u).events = 0)
    ∧ (w.simpleFetch u = none →
      (get_job_data w "url" u).out
          = (authScrapePath w.email w.password w.today w.rmFails w.fs w.browser u).2.2
      ∧ countScraper (get_job_data w "url" u).events = 1) := by
  constructor
  · intro raw hf
    have hgd : get_job_data w "url" u =
        ⟨[.fetchGet u],
         ["Processing job description from source: url",
          "Non-LinkedIn URL detected, using simple fetch."],
         .ok ⟨"Unknown Company", pyNormalize raw⟩⟩ := by
      unfold get_job_data
      simp [hng, hf]
    refine ⟨hgd, ?_⟩
    rw [hgd]
    rfl
  · intro hf
    rcases hA : authScrapePath w.email w.password w.today w.rmFails w.fs w.browser u
      with ⟨evs, lg, out⟩
    have hE := authScrape_events w.email w.password w.today w.rmFails w.fs w.browser u
    rw [hA] at hE
    have hout : (get_job_data w "url" u).out = out := by
      unfold get_job_data
      simp [hng, hf, hA]
    have hev : (get_job_data w "url" u).events = .fetchGet u :: evs := by
      unfold get_job_data
      simp [hng, hf, hA]
    refine ⟨by rw [hout], ?_⟩
    rw [hev]
    have h1 := hE.1
    unfold countScraper at h1 ⊢
    simp [List.countP_cons, h1]

/-- Counterexample to claim C1 as stated: a URL whose host is not the gated
target but which contains the substring linkedin.com.  The simple fetch
would succeed, yet the authenticated scraper runs (once) and its result,
not the fetch result, is returned. -/
theorem claim1_counterexample :
    hostIsGatedStr u1 = false
    ∧ w1.simpleFetch u1 = some "Great Job"
    ∧ countScraper (get_job_data w1 "url" u1).events = 1
    ∧ (get_job_data w1 "url" u1).out = .ok ⟨"Acme Corp", "Auth Text"⟩
    ∧ (get_job_data w1 "url" u1).out ≠ .ok ⟨"Unknown Company", pyNormalize "Great Job"⟩ :=
  ⟨rfl, rfl, rfl, rfl, by
    intro hc
    rw [show (get_job_data w1 "url" u1).out = .ok ⟨"Acme Corp", "Auth Text"⟩ from rfl] at hc
    simp [pyNormalize, splitWs, splitWsAux, joinSp, isPySpace] at hc⟩

/-- Concrete instance of claim C1 (amended): fetch success on `u3` and
fetch failure on `u3` under a failing fetcher. -/
theorem claim1_witness :
    (get_job_data w1 "url" u3 =
      ⟨[.fetchGet u3],
       ["Processing job description from source: url",
        "Non-LinkedIn URL detected, using simple fetch."],
       .ok ⟨"Unknown Company", pyNormalize "Great Job"⟩⟩
      ∧ countScraper (get_job_data w1 "url" u3).events = 0)
    ∧ ((get_job_data w2 "url" u3).out
          = (authScrapePath w2.email w2.password w2.today w2.rmFails w2.fs w2.browser u3).2.2
      ∧ countScraper (get_job_data w2 "url" u3).events = 1) :=
  ⟨(claim1_amended_fastpath_fallback w1 u3 rfl).1 "Great Job" rfl,
   (claim1_amended_fastpath_fallback w2 u3 rfl).2 rfl⟩

/-- Claim C3 (amended: the gate of line 71 is substring containment over the
whole URL, not a host comparison): the simple fetch is attempted exactly
when linkedin.com does not occur in the URL; otherwise the authenticated
scraper is used directly, once. -/
theorem claim3_amended_gate_is_substring (w : World) (u : String) :
    fastAttempted w u = !(containsSub "linkedin.com".data u.data)
    ∧ (containsSub "linkedin.com".data u.data = true →
        (get_job_data w "url" u).out
          = (authScrapePath w.email w.password w.today w.rmFails w.fs w.browser u).2.2
        ∧ countScraper (get_job_data w "url" u).events = 1) := by
  constructor
  · by_cases hc : containsSub "linkedin.com".data u.data = true
    · rcases hA : authScrapePath w.email w.password w.today w.rmFails w.fs w.browser u
        with ⟨evs, lg, out⟩
      have hE := authScrape_events w.email w.password w.today w.rmFails w.fs w.browser u
      rw [hA] at hE
      unfold fastAttempted get_job_data
      simp [hc, hA, hE.2]
    · have hc' : containsSub "linkedin.com".data u.data = false := by simpa using hc
      rcases hf : w.simpleFetch u with _ | raw
      · rcases hA : authScrapePath w.email w.password w.today w.rmFails w.fs w.browser u
          with ⟨evs, lg, out⟩
        unfold fastAttempted get_job_data
        simp [hc', hf, hA, isFetchGet]
      · unfold fastAttempted get_job_data
        simp [hc', hf, isFetchGet]
  · intro hc
    rcases hA : authScrapePath w.email w.password w.today w.rmFails w.fs w.browser u
      with ⟨evs, lg, out⟩
    have hE := authScrape_events w.email w.password w.today w.rmFails w.fs w.browser u
    rw [hA] at hE
    have hout : (get_job_data w "url" u).out = out := by
      unfold get_job_data
      simp [hc, hA]
    have hev : (get_job_data w "url" u).events = evs := by
      unfold get_job_data
      simp [hc, hA]
    rw [hout, hev]
    exact ⟨rfl, hE.1⟩

/-- Counterexample to claim C3 as stated: a URL whose host is not the gated
target for which the fast path is nevertheless not attempted. -/
theorem claim3_counterexample :
    hostIsGatedStr u2 = false ∧ fastAttempted w1 u2 = false :=
  ⟨rfl, rfl⟩

/-- Concrete instance of claim C3 (amended) on a gated URL. -/
theorem claim3_witness :
    (get_job_data w1 "url" "https://www.linkedin.com/jobs/view/9").out
      = (authScrapePath w1.email w1.password w1.today w1.rmFails w1.fs w1.browser
          "https://www.linkedin.com/jobs/view/9").2.2
    ∧ countScraper (get_job_data w1 "url" "https://www.linkedin.com/jobs/view/9").events = 1 :=
  (claim3_amended_gate_is_substring w1 "https://www.linkedin.com/jobs/view/9").2 (by decide)

/-- Claim C7: a Text descriptor is passed through verbatim: the sentinel
company name, the unmodified value as body text, and no network or
filesystem effect (line 194-195). -/
theorem claim7_text_passthrough (w : World) (v : String) :
    get_job_data w "text" v =
      ⟨[], ["Processing job description from source: text"],
       .ok ⟨"Unknown Company", v⟩⟩ := rfl

/-- Counterexample to claim C2 as stated: a Text descriptor with the empty
value succeeds with empty body text; no emptiness check exists on any
return path of `get_job_data`. -/
theorem claim2_counterexample :
    (get_job_data w1 "text" "").out = .ok ⟨"Unknown Company", ""⟩ := rfl

/-- Claim C2 (amended): success does not guarantee non-empty body text —
a Text descriptor returns its value verbatim even when empty — while on
the authenticated path the parse stage does fail rather than return when
no content marker matches (line 186). -/
theorem claim2_amended_emptiness (w : World) (v : String) (m : Markup)
    (h1 : m.jobDetails = none) (h2 : m.descText = none) :
    (get_job_data w "text" v).out = .ok ⟨"Unknown Company", v⟩
    ∧ (parseResult m).2 = .error jdMissingMsg := by
  refine ⟨rfl, ?_⟩
  unfold parseResult
  rw [h1, h2]

/-- Concrete instance of claim C2 (amended). -/
theorem claim2_witness :
    (get_job_data w1 "text" "hello").out = .ok ⟨"Unknown Company", "hello"⟩
    ∧ (parseResult mEmpty).2 = .error jdMissingMsg :=
  claim2_amended_emptiness w1 "hello" mEmpty rfl rfl

/-- Counterexample to claim C4 as stated: the ExtractContent wait step uses
a single marker (the Apply button, line 151), not the two content-region
markers of the parse stage (lines 179-182). -/
theorem claim4_counterexample :
    extractWaitMarkers.length = 1
    ∧ extractWaitMarkers ≠ parseContainerMarkers
    ∧ apply_button_selector ∉ parseContainerMarkers := by
  refine ⟨rfl, by decide, by decide⟩

/-- Claim C4 (amended): the ExtractContent wait (bounded 60s) is on the
single Apply-button marker — succeeding or timing out on it alone — while
ParseResult selects the content region among its own two markers,
`div#job-details` first, `div.description__text` second, first match
wins. -/
theorem claim4_amended_markers :
    (∀ (b : BrowserW) (u : String), b.gotoJob = none → b.applyBtn = false →
        (jobPhase b u).2 = .error (timeoutMsg apply_button_selector "60000"))
    ∧ (∀ (b : BrowserW) (u : String), b.gotoJob = none → b.applyBtn = true →
        (jobPhase b u).2 = .ok b.markup)
    ∧ (∀ (m : Markup) (t : String), m.jobDetails = some t →
        (parseResult m).2 = .ok ⟨companyResolved m, pyNormalize t⟩)
    ∧ (∀ (m : Markup) (t : String), m.jobDetails = none → m.descText = some t →
        (parseResult m).2 = .ok ⟨companyResolved m, pyNormalize t⟩) := by
  refine ⟨?_, ?_, ?_, ?_⟩
  · intro b u h1 h2
    unfold jobPhase
    rw [h1, h2]
    rfl
  · intro b u h1 h2
    unfold jobPhase
    rw [h1, h2]
    rfl
  · intro m t h
    unfold parseResult
    rw [h]
  · intro m t h1 h2
    unfold parseResult
    rw [h1, h2]

/-- Concrete instance of claim C4 (amended); in particular `mBoth` has both
content markers present and `div#job-details` wins. -/
theorem claim4_witness :
    (jobPhase bNoApply u3).2 = .error (timeoutMsg apply_button_selector "60000")
    ∧ (jobPhase okBrowser u3).2 = .ok okBrowser.markup
    ∧ (parseResult mBoth).2 = .ok ⟨companyResolved mBoth, pyNormalize "AAA"⟩ :=
  ⟨claim4_amended_markers.1 bNoApply u3 rfl rfl,
   claim4_amended_markers.2.1 okBrowser u3 rfl rfl,
   claim4_amended_markers.2.2.1 mBoth "AAA" rfl⟩

/-- Counterexample to claim C6 as stated: a failing deletion aborts the
purge (the second stale directory survives) and the exception makes the
whole scrape fail. -/
theorem claim6_counterexample :
    (clear_old_sessions "2025-10-12" rm6 fs6).2.2 = some (rmErr "session_2025-01-01")
    ∧ ("session_2025-01-02", true) ∈ (clear_old_sessions "2025-10-12" rm6 fs6).1.entries
    ∧ (get_job_data w6 "url" "https://www.linkedin.com/jobs/view/123").out
        = .error (rmErr "session_2025-01-01") := by
  refine ⟨rfl, by decide, rfl⟩

/-- Claim C6 (amended): a deletion failure in the purge is not handled
inside `clear_old_sessions`: it propagates, reaches the catch-all at lines
190-192, is logged there and re-raised, so the overall scrape fails. -/
theorem claim6_amended_purge_failure_propagates (w : World) (u : String)
    (fs1 : FsState) (nm e : String)
    (hg : containsSub "linkedin.com".data u.data = true)
    (hem : pyTruthy w.email = true) (hpw : pyTruthy w.password = true)
    (hmk : get_daily_session_path w.today w.fs = .ok (fs1, nm))
    (hcl : (clear_old_sessions w.today w.rmFails fs1).2.2 = some e) :
    (get_job_data w "url" u).out = .error e
    ∧ ("An error occurred during Playwright operation: " ++ e)
        ∈ (get_job_data w "url" u).logs := by
  rcases hC : clear_old_sessions w.today w.rmFails fs1 with ⟨fs2, slg, er⟩
  have her : er = some e := by
    rw [hC] at hcl
    exact hcl
  subst her
  have htb : tryBody w.today w.rmFails w.fs w.browser u
      = ([.sessionMkdir, .sessionPurge], slg, .error e) := by
    unfold tryBody
    rw [hmk]
    simp [hC]
  constructor
  · unfold get_job_data authScrapePath
    simp [hg, hem, hpw, htb]
  · unfold get_job_data authScrapePath
    simp [hg, hem, hpw, htb]

/-- Concrete instance of claim C6 (amended). -/
theorem claim6_witness :
    (get_job_data w6 "url" "https://www.linkedin.com/jobs/view/7").out
        = .error (rmErr "session_2025-01-01")
    ∧ ("An error occurred during Playwright operation: " ++ rmErr "session_2025-01-01")
        ∈ (get_job_data w6 "url" "https://www.linkedin.com/jobs/view/7").logs :=
  claim6_amended_purge_failure_propagates w6 "https://www.linkedin.com/jobs/view/7"
    ⟨true, [("session_2025-01-01", true), ("session_2025-01-02", true),
            ("session_2025-10-12", true)]⟩
    "session_2025-10-12" (rmErr "session_2025-01-01")
    (by decide) rfl rfl rfl rfl

/-! ## Lemmas about credential logging -/

theorem string_len_zero {s : String} (h : s.length = 0) : s = "" := by
  cases s with
  | mk data =>
    cases data with
    | nil => rfl
    | cons c cs => simp [String.length] at h

theorem maskPw_congr (p q : Option String) (h : pwLen p = pwLen q) :
    maskPw p = maskPw q := by
  rcases p with _ | s <;> rcases q with _ | t
  · rfl
  · have ht : t = "" := string_len_zero (by simpa [pwLen] using h.symm)
    subst ht
    rfl
  · have hs : s = "" := string_len_zero (by simpa [pwLen] using h)
    subst hs
    rfl
  · simp only [pwLen] at h
    by_cases hs : s = ""
    · subst hs
      have ht : t = "" := string_len_zero (by simpa using h.symm)
      subst ht
      rfl
    · have ht : ¬ t = "" := by
        intro hh
        subst hh
        exact hs (string_len_zero (by simpa using h))
      simp [maskPw, hs, ht, h]

theorem pyTruthy_congr (p q : Option String) (h : pwLen p = pwLen q) :
    pyTruthy p = pyTruthy q := by
  rcases p with _ | s <;> rcases q with _ | t
  · rfl
  · have ht : t = "" := string_len_zero (by simpa [pwLen] using h.symm)
    subst ht
    rfl
  · have hs : s = "" := string_len_zero (by simpa [pwLen] using h)
    subst hs
    rfl
  · simp only [pwLen] at h
    by_cases hs : s = ""
    · subst hs
      have ht : t = "" := string_len_zero (by simpa using h.symm)
      subst ht
      rfl
    · have ht : ¬ t = "" := by
        intro hh
        subst hh
        exact hs (string_len_zero (by simpa using h))
      simp [pyTruthy, hs, ht]

theorem authScrapePath_pw (em p q : Option String) (today : String)
    (rm : String → Bool) (fs : FsState) (b : BrowserW) (url : String)
    (h : pwLen p = pwLen q) :
    authScrapePath em p today rm fs b url = authScrapePath em q today rm fs b url := by
  unfold authScrapePath
  rw [maskPw_congr p q h, pyTruthy_congr p q h]

/-- Claim C8: the secret influences the printed output only through its
length.  Two calls whose worlds agree everywhere except the secret, with
secrets of equal length, print identical logs: the secret value itself is
never written (line 94 prints a star mask only). -/
theorem claim8_secret_noninterference (sf : String → Option String) (fe : String)
    (em p q : Option String) (td : String) (fs : FsState) (rm : String → Bool)
    (b : BrowserW) (pp : String → Option (List String)) (pe st sv : String)
    (h : pwLen p = pwLen q) :
    (get_job_data ⟨sf, fe, em, p, td, fs, rm, b, pp, pe⟩ st sv).logs
      = (get_job_data ⟨sf, fe, em, q, td, fs, rm, b, pp, pe⟩ st sv).logs := by
  have hA : authScrapePath em p td rm fs b sv = authScrapePath em q td rm fs b sv :=
    authScrapePath_pw em p q td rm fs b sv h
  unfold get_job_data
  simp only [hA]

/-- Concrete instance of claim C8: two equal-length secrets, equal logs. -/
theorem claim8_witness :
    (get_job_data ⟨fun _ => some "Great Job", "boom", some "user@example.com",
        some "hunter2", "2025-10-12", ⟨false, []⟩, fun _ => false, okBrowser,
        fun _ => none, "no file"⟩ "url" "https://www.linkedin.com/jobs/view/5").logs
      = (get_job_data ⟨fun _ => some "Great Job", "boom", some "user@example.com",
          some "abcdefg", "2025-10-12", ⟨false, []⟩, fun _ => false, okBrowser,
          fun _ => none, "no file"⟩ "url" "https://www.linkedin.com/jobs/view/5").logs :=
  claim8_secret_noninterference (fun _ => some "Great Job") "boom"
    (some "user@example.com") (some "hunter2") (some "abcdefg") "2025-10-12"
    ⟨false, []⟩ (fun _ => false) okBrowser (fun _ => none) "no file"
    "url" "https://www.linkedin.com/jobs/view/5" rfl
